import Mathlib

/-!
Verification of the classifai-python client library.

The development embeds the content-normalization pipeline and the
response-to-error mapping of `src/classifai/client.py` as executable Lean
definitions, together with the exception model of
`src/classifai/exceptions.py`, and proves the stated properties about them.

Filesystem and network effects are modelled by explicit oracles (`FS`, `Net`)
passed to the embedded functions; quantifying a theorem over all oracles
expresses that the corresponding code path performs no file or network I/O.
-/

/-- Values produced by parsing a JSON document (the result of
`response.json()` in the Python source). -/
inductive Json where
  | null : Json
  | bool (b : Bool) : Json
  | str (s : String) : Json
  | num (n : Int) : Json
  | arr (xs : List Json) : Json
  | obj (kvs : List (String × Json)) : Json

/-- Single-quote character, used by the Python `repr` of strings and dicts. -/
def pyQuote : String := String.singleton (Char.ofNat 39)

mutual

/-- Python `repr()` of a parsed JSON value (lists and dicts render their
elements with `repr`, strings are single-quoted, `None`/`True`/`False`
use their Python spellings). -/
def pyRepr : Json → String
  | .null => "None"
  | .bool true => "True"
  | .bool false => "False"
  | .str s => pyQuote ++ s ++ pyQuote
  | .num n => toString n
  | .arr xs => "[" ++ pyReprList xs ++ "]"
  | .obj kvs => "\x7b" ++ pyReprObj kvs ++ "\x7d"

/-- Comma-separated `repr` of the elements of a Python list. -/
def pyReprList : List Json → String
  | [] => ""
  | [x] => pyRepr x
  | x :: y :: rest => pyRepr x ++ ", " ++ pyReprList (y :: rest)

/-- Comma-separated `repr` of the key/value pairs of a Python dict. -/
def pyReprObj : List (String × Json) → String
  | [] => ""
  | [kv] => pyQuote ++ kv.fst ++ pyQuote ++ ": " ++ pyRepr kv.snd
  | kv :: kv2 :: rest => pyQuote ++ kv.fst ++ pyQuote ++ ": " ++ pyRepr kv.snd ++ ", " ++ pyReprObj (kv2 :: rest)

end

/-- Python `str()` of a parsed JSON value: the string itself for strings,
`repr` otherwise (matching `str` on `None`, booleans, numbers, lists and
dicts). Used by the f-string interpolation in `_handle_response`. -/
def pyStr : Json → String
  | .str s => s
  | j => pyRepr j

/-- First-match association lookup, modelling Python's `dict.get(key)`
returning `None` when the key is absent. -/
def lookupJson : List (String × Json) → String → Option Json
  | [], _ => none
  | (k2, v) :: rest, k => if k2 = k then some v else lookupJson rest k

/-- Python truthiness of a parsed JSON value (`if detail:` in the source):
`None`, `False`, `0`, and empty strings/lists/dicts are falsy. -/
def truthy : Json → Bool
  | .null => false
  | .bool b => b
  | .str s => !s.isEmpty
  | .num n => n != 0
  | .arr xs => !xs.isEmpty
  | .obj kvs => !kvs.isEmpty

/-- Whether a parsed JSON value is an object (a Python dict), the only shape
on which `.get` is defined. -/
def isObj : Json → Bool
  | .obj _ => true
  | _ => false

/-- A Python `Dict[str, str]`, as used for pre-formed content records. -/
abbrev PyDict := List (String × String)

/-- Python `str()` of a `Dict[str, str]`, e.g.
`\x7b'type': 'text', 'content': 'photo.jpg'\x7d`. -/
def reprStrDictAux : PyDict → String
  | [] => ""
  | [kv] => pyQuote ++ kv.fst ++ pyQuote ++ ": " ++ pyQuote ++ kv.snd ++ pyQuote
  | kv :: kv2 :: rest =>
      pyQuote ++ kv.fst ++ pyQuote ++ ": " ++ pyQuote ++ kv.snd ++ pyQuote ++ ", " ++ reprStrDictAux (kv2 :: rest)

/-- Python `str()` of a `Dict[str, str]` (outer braces plus the
comma-separated pairs). -/
def reprStrDict (d : PyDict) : String :=
  "\x7b" ++ reprStrDictAux d ++ "\x7d"

/-- Character-list prefix test, the semantics of Python's
`str.startswith` on the decoded characters of the strings. -/
def listStartsWith : List Char → List Char → Bool
  | _, [] => true
  | [], _ :: _ => false
  | c :: cs, p :: ps => c == p && listStartsWith cs ps

/-- Embedding of the URL test in `_process_content_items`
(`item_str.startswith(("http://", "https://"))`,
src/classifai/client.py line 355). -/
def isUrl (s : String) : Bool :=
  listStartsWith s.data "http://".data || listStartsWith s.data "https://".data

/-- Standard base64 alphabet (RFC 4648), as used by Python's
`base64.b64encode`. -/
def b64Alphabet : List Char :=
  "ABCDEFGHIJKLMNOPQRSTUVWXYZabcdefghijklmnopqrstuvwxyz0123456789+/".data

/-- Character of the base64 alphabet at a 6-bit index. -/
def sextetToChar (n : Nat) : Char :=
  b64Alphabet.getD n "A".data.head!

/-- Index of a character in the base64 alphabet. -/
def charToSextet (c : Char) : Nat :=
  b64Alphabet.indexOf c

/-- Base64 encoding of a byte sequence (each `Nat` is one byte, `< 256`),
three bytes to four characters with `=` padding, exactly as
`base64.b64encode`. -/
def b64encodeBytes : List Nat → List Char
  | b1 :: b2 :: b3 :: rest =>
      sextetToChar (b1 / 4) ::
      sextetToChar ((b1 % 4) * 16 + b2 / 16) ::
      sextetToChar ((b2 % 16) * 4 + b3 / 64) ::
      sextetToChar (b3 % 64) :: b64encodeBytes rest
  | [b1, b2] =>
      [sextetToChar (b1 / 4), sextetToChar ((b1 % 4) * 16 + b2 / 16),
       sextetToChar ((b2 % 16) * 4), Char.ofNat 61]
  | [b1] =>
      [sextetToChar (b1 / 4), sextetToChar ((b1 % 4) * 16), Char.ofNat 61, Char.ofNat 61]
  | [] => []

/-- Base64 decoding of a character sequence back to bytes, `=`-padding
aware; inverse of `b64encodeBytes` on well-formed input. -/
def b64decodeBytes : List Char → List Nat
  | c1 :: c2 :: c3 :: c4 :: rest =>
      if c3 = Char.ofNat 61 then
        [charToSextet c1 * 4 + charToSextet c2 / 16]
      else if c4 = Char.ofNat 61 then
        [charToSextet c1 * 4 + charToSextet c2 / 16,
         (charToSextet c2 % 16) * 16 + charToSextet c3 / 4]
      else
        (charToSextet c1 * 4 + charToSextet c2 / 16) ::
        ((charToSextet c2 % 16) * 16 + charToSextet c3 / 4) ::
        ((charToSextet c3 % 4) * 64 + charToSextet c4) ::
        b64decodeBytes rest
  | _ => []

/-- String form of the base64 encoding, modelling
`base64.b64encode(data).decode("utf-8")`. -/
def b64encode (bs : List Nat) : String :=
  String.mk (b64encodeBytes bs)

/-- String form of base64 decoding, modelling `base64.b64decode`. -/
def b64decode (s : String) : List Nat :=
  b64decodeBytes s.data

/-- Filesystem oracle: `existsFile s` models
`Path(s).exists() and Path(s).is_file()`, and `readBytes s` the bytes
returned by `open(path, "rb").read()`. -/
structure FS where
  existsFile : String → Bool
  readBytes : String → List Nat

/-- Network oracle for `requests.get(url, timeout=30)` followed by
`raise_for_status()`: `some bytes` is a successful download's
`response.content`, `none` a transport or HTTP failure (a `requests`
exception propagating out of normalization). -/
structure Net where
  fetch : String → Option (List Nat)

/-- One element of a content list passed to `classify`: a `str`, a
`pathlib.Path` (carried as its string form), or a pre-formed dict. -/
inductive ContentElem where
  | str (s : String) : ContentElem
  | path (s : String) : ContentElem
  | dict (d : PyDict) : ContentElem

/-- The `content` argument of `classify`: a single string, a list, or any
other Python value (the shapes rejected by `_normalize_content`). -/
inductive Content where
  | str (s : String) : Content
  | list (items : List ContentElem) : Content
  | other : Content

/-- Python `isinstance(item, dict)` on a content-list element. -/
def isDictElem : ContentElem → Bool
  | .dict _ => true
  | _ => false

/-- The dict carried by a `.dict` element (the pass-through branch of
`_normalize_content` returns these unchanged). -/
def extractDict : ContentElem → PyDict
  | .dict d => d
  | _ => []

/-- Python `str(item)` on a content-list element (`item_str` in
`_process_content_items`). -/
def strOfElem : ContentElem → String
  | .str s => s
  | .path s => s
  | .dict d => reprStrDict d

/-- Outcome of `_normalize_content`: a list of content-record dicts, a
locally raised `ValidationError`, or a propagated transport error from a
URL fetch (carrying the failing URL). -/
inductive NormResult where
  | ok (items : List PyDict) : NormResult
  | validationError (msg : String) : NormResult
  | transportError (url : String) : NormResult

/-- Message of the `ValidationError` raised by `_normalize_content`
(src/classifai/client.py line 338). -/
def contentTypeErrorMsg : String :=
  "Content must be a string, list of strings/paths/URLs, or list of dicts"

/-- Embedding of the per-item body of the loop in
`_process_content_items` (src/classifai/client.py lines 351-377): URL
check first, then the file-path check for `str`/`Path` items, otherwise
literal text. An `error` result is the propagated `requests` exception of
a failed URL fetch. -/
def processItem (fs : FS) (net : Net) (e : ContentElem) : Except String PyDict :=
  let item_str := strOfElem e
  if isUrl item_str then
    match net.fetch item_str with
    | some bytes => .ok [("type", "image"), ("content", b64encode bytes)]
    | none => .error item_str
  else
    match e with
    | .dict _ => .ok [("type", "text"), ("content", item_str)]
    | _ =>
        if fs.existsFile item_str then
          .ok [("type", "image"), ("content", b64encode (fs.readBytes item_str))]
        else
          .ok [("type", "text"), ("content", item_str)]

/-- Embedding of `_process_content_items` (src/classifai/client.py lines
340-379): items are processed in order and a failure on any item aborts
the whole loop. -/
def processContentItems (fs : FS) (net : Net) : List ContentElem → Except String (List PyDict)
  | [] => .ok []
  | e :: rest =>
      match processItem fs net e with
      | .error u => .error u
      | .ok d =>
          match processContentItems fs net rest with
          | .error u => .error u
          | .ok ds => .ok (d :: ds)

/-- Embedding of `_normalize_content` (src/classifai/client.py lines
308-338): a string is processed as a one-element list; a list whose
elements are all dicts is returned unchanged; any other list is processed
item by item; everything else raises `ValidationError`. -/
def normalizeContent (fs : FS) (net : Net) : Content → NormResult
  | .str s =>
      match processContentItems fs net [ContentElem.str s] with
      | .ok items => .ok items
      | .error u => .transportError u
  | .list items =>
      if items.all isDictElem then .ok (items.map extractDict)
      else
        match processContentItems fs net items with
        | .ok ds => .ok ds
        | .error u => .transportError u
  | .other => .validationError contentTypeErrorMsg

/-- Failure of a `classify` call before any request is sent: the local
`ValidationError` or a propagated transport error from normalization. -/
inductive NormFailure where
  | validation (msg : String) : NormFailure
  | transport (url : String) : NormFailure

/-- An outbound HTTP POST request: target URL and JSON body. -/
structure ApiRequest where
  url : String
  body : List (String × Json)

/-- JSON form of the normalized content items, as serialized into the
`classify` request body. -/
def jsonOfItems (items : List PyDict) : Json :=
  Json.arr (items.map fun d => Json.obj (d.map fun kv => (kv.fst, Json.str kv.snd)))

/-- Embedding of `ClassifAI.classify` up to the point the request is
handed to the transport (src/classifai/client.py lines 99-222): content
is normalized, then the request body is assembled, omitting `labels`,
`description` and `project_id` when falsy. A normalization failure means
no request is produced at all. -/
def classify (fs : FS) (net : Net) (baseUrl : String) (content : Content)
    (labels : Option (List String)) (description : Option String)
    (projectId : Option String) : Except NormFailure ApiRequest :=
  match normalizeContent fs net content with
  | .validationError m => .error (.validation m)
  | .transportError u => .error (.transport u)
  | .ok items =>
      let d0 := [("content", jsonOfItems items)]
      let d1 := match labels with
        | some l => if l.isEmpty then d0 else d0 ++ [("labels", Json.arr (l.map Json.str))]
        | none => d0
      let d2 := match description with
        | some s => if s.isEmpty then d1 else d1 ++ [("description", Json.str s)]
        | none => d1
      let d3 := match projectId with
        | some p => if p.isEmpty then d2 else d2 ++ [("project_id", Json.str p)]
        | none => d2
      .ok { url := baseUrl ++ "/classify", body := d3 }

/-- The `ground_truth` argument of `submit_feedback`: a single label or a
list of labels. -/
inductive GroundTruth where
  | single (s : String) : GroundTruth
  | labels (ls : List String) : GroundTruth

/-- Embedding of `ClassifAI.submit_feedback` up to the outbound request
(src/classifai/client.py lines 224-269): a string goes out under
`ground_truth`, a list under `ground_truth_labels`. -/
def submit_feedback (baseUrl detection_id : String) (gt : GroundTruth) : ApiRequest :=
  { url := baseUrl ++ "/ground_truth/" ++ detection_id
    body :=
      match gt with
      | .single s => [("ground_truth", Json.str s)]
      | .labels ls => [("ground_truth_labels", Json.arr (ls.map Json.str))] }

/-- A transport response as seen by `_handle_response`: the HTTP status,
the parsed JSON body (`none` when `response.json()` raises `ValueError`),
and the raw body text. -/
structure HttpResponse where
  status_code : Nat
  jsonBody : Option Json
  text : String

/-- The `data` value of `_handle_response` (src/classifai/client.py lines
75-78): the parsed body, or the raw text wrapped as an `error` field when
parsing fails. -/
def responseData (r : HttpResponse) : Json :=
  match r.jsonBody with
  | some j => j
  | none => Json.obj [("error", Json.str r.text)]

/-- The error taxonomy of src/classifai/exceptions.py: every class is a
subclass of `ClassifAIError` (`other`). -/
inductive ErrKind where
  | auth : ErrKind
  | rateLimit : ErrKind
  | validation : ErrKind
  | notFound : ErrKind
  | other : ErrKind

/-- A constructed `ClassifAIError` (src/classifai/exceptions.py lines
4-11): subclass, message, `status_code` and the parsed response body. -/
structure ApiError where
  kind : ErrKind
  message : String
  status_code : Nat
  response : Json

/-- Outcome of `_handle_response`: the parsed body on success, a raised
`ClassifAIError` subclass on a mapped failure, or an uncaught Python
exception (the `AttributeError` of calling `.get` on a non-dict body). -/
inductive HResult where
  | ok (body : Json) : HResult
  | apiError (e : ApiError) : HResult
  | pyError (name : String) : HResult

/-- Embedding of `ClassifAI._handle_response` (src/classifai/client.py
lines 59-97): status 200 returns the body; otherwise the message is
composed from the `error` and `detail` fields and the status code selects
the exception class. `data.get` on a non-dict parsed body raises
`AttributeError`. -/
def handleResponse (r : HttpResponse) : HResult :=
  let data := responseData r
  if r.status_code = 200 then .ok data
  else
    match data with
    | .obj kvs =>
        let error_msg :=
          match lookupJson kvs "error" with
          | some v => pyStr v
          | none => "Unknown error"
        let msg :=
          match lookupJson kvs "detail" with
          | some d => if truthy d then error_msg ++ ": " ++ pyStr d else error_msg
          | none => error_msg
        if r.status_code = 401 then .apiError ⟨.auth, msg, r.status_code, data⟩
        else if r.status_code = 429 then .apiError ⟨.rateLimit, msg, r.status_code, data⟩
        else if r.status_code = 400 then .apiError ⟨.validation, msg, r.status_code, data⟩
        else if r.status_code = 404 then .apiError ⟨.notFound, msg, r.status_code, data⟩
        else .apiError ⟨.other, msg, r.status_code, data⟩
    | _ => .pyError "AttributeError"

/-- Modelled from the spec: the error-kind selection table of the response
mapper (spec section 4.3) as a function of the status code alone, for
comparison with the embedded `handleResponse`. -/
def kindOfStatus (c : Nat) : ErrKind :=
  if c = 401 then .auth
  else if c = 429 then .rateLimit
  else if c = 400 then .validation
  else if c = 404 then .notFound
  else .other

/-- Modelled from the spec: the error-message composition rule (spec
section 4.3, as amended): the `error` field, defaulting to
`Unknown error`, with `: detail` appended when a `detail` field is
present and truthy. -/
def composedMessage (kvs : List (String × Json)) : String :=
  let base :=
    match lookupJson kvs "error" with
    | some v => pyStr v
    | none => "Unknown error"
  match lookupJson kvs "detail" with
  | some d => if truthy d then base ++ ": " ++ pyStr d else base
  | none => base

/-- Each base64 index below 64 maps to its alphabet character and back, and
that character is never the padding character. -/
theorem sextet_table :
    ∀ n : Fin 64,
      charToSextet (sextetToChar n.val) = n.val ∧ sextetToChar n.val ≠ Char.ofNat 61 := by
  decide

/-- Round trip of a single sextet through the base64 alphabet. -/
theorem charToSextet_sextetToChar (n : Nat) (h : n < 64) :
    charToSextet (sextetToChar n) = n :=
  (sextet_table ⟨n, h⟩).1

/-- Alphabet characters are distinct from the padding character. -/
theorem sextetToChar_ne_pad (n : Nat) (h : n < 64) :
    sextetToChar n ≠ Char.ofNat 61 :=
  (sextet_table ⟨n, h⟩).2

/-- Base64 decoding inverts base64 encoding on byte sequences. -/
theorem b64decodeBytes_encodeBytes :
    ∀ bs : List Nat, (∀ b ∈ bs, b < 256) → b64decodeBytes (b64encodeBytes bs) = bs
  | [], _ => rfl
  | [b1], h => by
      have hb1 : b1 < 256 := h b1 (by simp)
      have h1 : b1 / 4 < 64 := by omega
      have h2 : (b1 % 4) * 16 < 64 := by omega
      simp only [b64encodeBytes, b64decodeBytes]
      rw [if_pos trivial]
      rw [charToSextet_sextetToChar _ h1, charToSextet_sextetToChar _ h2]
      simp only [List.cons.injEq, and_true]
      omega
  | [b1, b2], h => by
      have hb1 : b1 < 256 := h b1 (by simp)
      have hb2 : b2 < 256 := h b2 (by simp)
      have h1 : b1 / 4 < 64 := by omega
      have h2 : (b1 % 4) * 16 + b2 / 16 < 64 := by omega
      have h3 : (b2 % 16) * 4 < 64 := by omega
      simp only [b64encodeBytes, b64decodeBytes]
      rw [if_neg (sextetToChar_ne_pad _ h3), if_pos trivial]
      rw [charToSextet_sextetToChar _ h1, charToSextet_sextetToChar _ h2,
        charToSextet_sextetToChar _ h3]
      simp only [List.cons.injEq, and_true]
      constructor
      · omega
      · omega
  | b1 :: b2 :: b3 :: rest, h => by
      have hb1 : b1 < 256 := h b1 (by simp)
      have hb2 : b2 < 256 := h b2 (by simp)
      have hb3 : b3 < 256 := h b3 (by simp)
      have h1 : b1 / 4 < 64 := by omega
      have h2 : (b1 % 4) * 16 + b2 / 16 < 64 := by omega
      have h3 : (b2 % 16) * 4 + b3 / 64 < 64 := by omega
      have h4 : b3 % 64 < 64 := by omega
      have ih := b64decodeBytes_encodeBytes rest (fun b hb => h b (by simp [hb]))
      simp only [b64encodeBytes, b64decodeBytes]
      rw [if_neg (sextetToChar_ne_pad _ h3), if_neg (sextetToChar_ne_pad _ h4)]
      rw [charToSextet_sextetToChar _ h1, charToSextet_sextetToChar _ h2,
        charToSextet_sextetToChar _ h3, charToSextet_sextetToChar _ h4, ih]
      simp only [List.cons.injEq, and_true]
      refine ⟨by omega, by omega, by omega⟩

/-- String-level base64 round trip. -/
theorem b64decode_b64encode (bs : List Nat) (h : ∀ b ∈ bs, b < 256) :
    b64decode (b64encode bs) = bs :=
  b64decodeBytes_encodeBytes bs h

/-- Processing a list whose prefix succeeds fails with the error of the
first failing item, whatever follows it. -/
theorem processContentItems_append_error (fs : FS) (net : Net) (e : ContentElem)
    (u : String) (he : processItem fs net e = .error u) :
    ∀ pre suf : List ContentElem,
      (∀ x ∈ pre, (processItem fs net x).isOk = true) →
      processContentItems fs net (pre ++ e :: suf) = .error u := by
  intro pre
  induction pre with
  | nil =>
      intro suf _
      simp only [List.nil_append, processContentItems, he]
  | cons x rest ih =>
      intro suf hok
      have hx : (processItem fs net x).isOk = true := hok x (by simp)
      cases hpx : processItem fs net x with
      | error u2 => rw [hpx] at hx; simp [Except.isOk, Except.toBool] at hx
      | ok d =>
          simp only [List.cons_append, processContentItems, List.append_eq, hpx,
            ih suf (fun y hy => hok y (by simp [hy]))]

/-- Concrete filesystem oracle on which no path exists. -/
def fsEmpty : FS := ⟨fun _ => false, fun _ => []⟩

/-- Concrete network oracle on which every fetch fails. -/
def netDown : Net := ⟨fun _ => none⟩

/-- Concrete network oracle on which every fetch returns the byte `9`. -/
def netNine : Net := ⟨fun _ => some [9]⟩

/-- Whether a normalization outcome is a raised `ValidationError`. -/
def isValidationFailure : NormResult → Bool
  | .validationError _ => true
  | _ => false

/-- The exception class and status code of a raised `ClassifAIError`, when
the outcome is one. -/
def errorClassOf : HResult → Option (ErrKind × Nat)
  | .apiError e => some (e.kind, e.status_code)
  | _ => none

/-- Concrete filesystem oracle holding one file whose name is also a URL. -/
def fsUrlFile : FS := ⟨fun s => s == "http://f", fun _ => [1, 2, 3]⟩

/-- Concrete filesystem oracle holding one two-byte file named `img`. -/
def fsImg : FS := ⟨fun s => s == "img", fun _ => [104, 105]⟩

/-- Concrete successful response. -/
def respOk : HttpResponse := ⟨200, some (Json.obj [("label", Json.str "positive")]), ""⟩

/-- Concrete 401 response. -/
def resp401 : HttpResponse := ⟨401, some (Json.obj [("error", Json.str "Invalid API key")]), ""⟩

/-- Concrete 500 response whose body parses to a JSON number. -/
def resp500num : HttpResponse := ⟨500, some (Json.num 3), "3"⟩

/-- Concrete 400 response with error and detail fields. -/
def resp400xy : HttpResponse :=
  ⟨400, some (Json.obj [("error", Json.str "X"), ("detail", Json.str "Y")]), ""⟩

/-- Concrete 400 response whose detail field is present but empty. -/
def resp400empty : HttpResponse :=
  ⟨400, some (Json.obj [("error", Json.str "X"), ("detail", Json.str "")]), ""⟩

/-- C1 (amended): normalization raises `ValidationError` exactly when the
content is neither a string nor a list, for every filesystem and network
oracle (so the failure is local and involves no file or network I/O); in
particular no list input — mixed or not — ever raises it. -/
theorem validationError_iff_other_input (fs : FS) (net : Net) (c : Content) (m : String) :
    normalizeContent fs net c = .validationError m ↔ (c = .other ∧ m = contentTypeErrorMsg) := by
  cases c with
  | str s =>
      simp only [normalizeContent]
      cases hpc : processContentItems fs net [ContentElem.str s] <;> simp
  | list items =>
      simp only [normalizeContent]
      by_cases hall : items.all isDictElem
      · simp [hall]
      · simp only [hall, Bool.false_eq_true, if_false]
        cases hpc : processContentItems fs net items <;> simp
  | other => simp [normalizeContent, eq_comm]

/-- C1 counterexample: a list mixing a pre-formed record with a raw string
is not rejected with `ValidationError` — the record is stringified into a
text item and processing succeeds. -/
theorem mixedList_processed_not_rejected :
    normalizeContent fsEmpty netDown
        (.list [ContentElem.dict [("type", "text"), ("content", "photo.jpg")],
                ContentElem.str "hello"]) =
      .ok [[("type", "text"),
            ("content", reprStrDict [("type", "text"), ("content", "photo.jpg")])],
           [("type", "text"), ("content", "hello")]]
    ∧ isValidationFailure (normalizeContent fsEmpty netDown
        (.list [ContentElem.dict [("type", "text"), ("content", "photo.jpg")],
                ContentElem.str "hello"])) = false :=
  ⟨rfl, rfl⟩

/-- C2 (amended): status 200 returns the parsed body unchanged; for every
non-200 response whose parsed body is an object (including the wrapped
unparseable case), the raised error's class follows the status table
(401 authentication, 429 rate limit, 400 validation, 404 not found,
anything else the base class) and its `status_code` field equals the
literal HTTP status of the response. -/
theorem handleResponse_status_mapping (r : HttpResponse) :
    (r.status_code = 200 → handleResponse r = .ok (responseData r))
    ∧ (r.status_code ≠ 200 → isObj (responseData r) = true →
        errorClassOf (handleResponse r) = some (kindOfStatus r.status_code, r.status_code)) := by
  constructor
  · intro h200
    simp [handleResponse, h200]
  · intro hne hobj
    cases hd : responseData r with
    | obj kvs =>
        simp only [handleResponse, hd, kindOfStatus]
        rw [if_neg hne]
        split_ifs <;> rfl
    | null => rw [hd] at hobj; simp [isObj] at hobj
    | bool b => rw [hd] at hobj; simp [isObj] at hobj
    | str s => rw [hd] at hobj; simp [isObj] at hobj
    | num n => rw [hd] at hobj; simp [isObj] at hobj
    | arr xs => rw [hd] at hobj; simp [isObj] at hobj

/-- C2 witness at a 200 and a 401 response. -/
theorem handleResponse_status_mapping_witness :
    (handleResponse respOk = .ok (responseData respOk))
    ∧ errorClassOf (handleResponse resp401) =
        some (kindOfStatus resp401.status_code, resp401.status_code) :=
  ⟨(handleResponse_status_mapping respOk).1 rfl,
   (handleResponse_status_mapping resp401).2 (by decide) rfl⟩

/-- C2 counterexample: a non-200 response whose body parses to a non-object
JSON value makes `data.get` raise `AttributeError`, so no `ClassifAIError`
of any kind is raised. -/
theorem handleResponse_nonobject_body_crashes :
    handleResponse resp500num = .pyError "AttributeError"
    ∧ errorClassOf (handleResponse resp500num) = none :=
  ⟨rfl, rfl⟩

/-- C3: for every non-empty list whose elements are all pre-formed dicts,
normalization is the identity: the dicts come back unchanged, for every
oracle (no element is reclassified, whatever its content looks like). -/
theorem normalize_all_records_identity (fs : FS) (net : Net) (ds : List PyDict)
    (_hne : ds ≠ []) :
    normalizeContent fs net (.list (ds.map ContentElem.dict)) = .ok ds := by
  simp only [normalizeContent, List.all_map]
  rw [if_pos]
  · rw [List.map_map, show extractDict ∘ ContentElem.dict = id from funext fun d => rfl,
      List.map_id]
  · simp [Function.comp, isDictElem]

/-- C3 witness at a concrete one-record list. -/
theorem normalize_all_records_identity_witness :
    normalizeContent fsEmpty netDown
        (.list ([[("type", "text"), ("content", "photo.jpg")]].map ContentElem.dict)) =
      .ok [[("type", "text"), ("content", "photo.jpg")]] :=
  normalize_all_records_identity fsEmpty netDown _ (by simp)

/-- C4 (amended): for every non-200 response whose parsed body is an object
with fields `kvs` (including the wrapped unparseable case), the raised
error's message is the `error` field (default `Unknown error`) with
`: detail` appended exactly when a `detail` field is present and truthy. -/
theorem handleResponse_message_composition (r : HttpResponse)
    (kvs : List (String × Json)) (hd : responseData r = .obj kvs)
    (hne : r.status_code ≠ 200) :
    handleResponse r = .apiError
      { kind := kindOfStatus r.status_code, message := composedMessage kvs,
        status_code := r.status_code, response := responseData r } := by
  simp only [handleResponse, hd, kindOfStatus]
  rw [if_neg hne]
  split_ifs <;> rfl

/-- C4 witness at a 400 response with body error X, detail Y, whose
composed message is X: Y. -/
theorem handleResponse_message_composition_witness :
    (handleResponse resp400xy = .apiError
      { kind := kindOfStatus resp400xy.status_code,
        message := composedMessage [("error", Json.str "X"), ("detail", Json.str "Y")],
        status_code := resp400xy.status_code, response := responseData resp400xy })
    ∧ composedMessage [("error", Json.str "X"), ("detail", Json.str "Y")] = "X: Y" :=
  ⟨handleResponse_message_composition resp400xy _ rfl (by decide), rfl⟩

/-- C4 counterexample: with a present but empty (falsy) `detail` field the
message is just the `error` field — the separator is not appended. -/
theorem handleResponse_falsy_detail_not_appended :
    handleResponse resp400empty =
      .apiError ⟨ErrKind.validation, "X", 400,
        Json.obj [("error", Json.str "X"), ("detail", Json.str "")]⟩
    ∧ ("X" : String) ≠ "X: " :=
  ⟨rfl, by decide⟩

/-- C5: a plain string that is not `http(s)://`-prefixed and is not an
existing regular file normalizes to exactly one text item carrying the
input string itself. -/
theorem normalize_plain_text_string (fs : FS) (net : Net) (s : String)
    (hurl : isUrl s = false) (hfile : fs.existsFile s = false) :
    normalizeContent fs net (.str s) = .ok [[("type", "text"), ("content", s)]] := by
  simp [normalizeContent, processContentItems, processItem, strOfElem, hurl, hfile]

/-- C5 witness at the string `hello`. -/
theorem normalize_plain_text_string_witness :
    normalizeContent fsEmpty netDown (.str "hello") =
      .ok [[("type", "text"), ("content", "hello")]] :=
  normalize_plain_text_string fsEmpty netDown "hello" (by decide) rfl

/-- C6 (amended): a string that is not `http(s)://`-prefixed and names an
existing regular file normalizes to exactly one image item whose payload is
the base64 encoding of the file's bytes, and base64-decoding that payload
returns exactly those bytes. -/
theorem normalize_existing_file_base64 (fs : FS) (net : Net) (s : String)
    (hurl : isUrl s = false) (hfile : fs.existsFile s = true)
    (hbytes : ∀ b ∈ fs.readBytes s, b < 256) :
    normalizeContent fs net (.str s) =
      .ok [[("type", "image"), ("content", b64encode (fs.readBytes s))]]
    ∧ b64decode (b64encode (fs.readBytes s)) = fs.readBytes s := by
  constructor
  · simp [normalizeContent, processContentItems, processItem, strOfElem, hurl, hfile]
  · exact b64decode_b64encode _ hbytes

/-- C6 witness at the file `img` with bytes `[104, 105]`. -/
theorem normalize_existing_file_base64_witness :
    normalizeContent fsImg netDown (.str "img") =
      .ok [[("type", "image"), ("content", b64encode (fsImg.readBytes "img"))]]
    ∧ b64decode (b64encode (fsImg.readBytes "img")) = fsImg.readBytes "img" :=
  normalize_existing_file_base64 fsImg netDown "img" (by decide) rfl (by decide)

/-- C6 counterexample: a string that names an existing regular file but
begins with `http://` is fetched from the network, so its payload is the
base64 of the fetched bytes, not of the file's bytes. -/
theorem normalize_url_named_file_fetches_url :
    fsUrlFile.existsFile "http://f" = true
    ∧ fsUrlFile.readBytes "http://f" = [1, 2, 3]
    ∧ normalizeContent fsUrlFile netNine (.str "http://f") =
        .ok [[("type", "image"), ("content", b64encode [9])]]
    ∧ b64encode [9] ≠ b64encode (fsUrlFile.readBytes "http://f") :=
  ⟨rfl, rfl, rfl, by decide⟩

/-- C7: for every `http(s)://`-prefixed string — whatever the filesystem
says about it — a successful fetch yields one image item whose payload is
the base64 of the fetched bytes, and a failed fetch makes the entire
classify call abort with the propagated transport error (not a taxonomy
error) before any request is built, whatever items follow in the list. -/
theorem normalize_url_fetch_and_failfast (fs : FS) (net : Net) (s : String)
    (hurl : isUrl s = true) :
    (∀ bs, net.fetch s = some bs →
        normalizeContent fs net (.str s) =
          .ok [[("type", "image"), ("content", b64encode bs)]])
    ∧ (net.fetch s = none →
        ∀ (pre suf : List ContentElem) (base : String) (labels : Option (List String))
          (descr pid : Option String),
          (∀ x ∈ pre, (processItem fs net x).isOk = true) →
          classify fs net base (.list (pre ++ ContentElem.str s :: suf)) labels descr pid =
            .error (.transport s)) := by
  constructor
  · intro bs hbs
    simp [normalizeContent, processContentItems, processItem, strOfElem, hurl, hbs]
  · intro hnone pre suf base labels descr pid hok
    have herr : processItem fs net (ContentElem.str s) = .error s := by
      simp [processItem, strOfElem, hurl, hnone]
    have hall : (pre ++ ContentElem.str s :: suf).all isDictElem = false := by
      simp [List.all_append, isDictElem]
    have hproc := processContentItems_append_error fs net _ s herr pre suf hok
    simp [classify, normalizeContent, hall, hproc]

/-- C7 witness: both branches at the URL `http://img`, over a network that
succeeds with byte `9` and one that is down. -/
theorem normalize_url_fetch_and_failfast_witness :
    (normalizeContent fsEmpty netNine (.str "http://img") =
      .ok [[("type", "image"), ("content", b64encode [9])]])
    ∧ (classify fsEmpty netDown "b" (.list [ContentElem.str "http://img"])
        none none none = .error (.transport "http://img")) :=
  ⟨(normalize_url_fetch_and_failfast fsEmpty netNine "http://img" (by decide)).1 [9] rfl,
   (normalize_url_fetch_and_failfast fsEmpty netDown "http://img" (by decide)).2 rfl
     [] [] "b" none none none (fun x hx => absurd hx (List.not_mem_nil x))⟩

/-- C8: normalizing a single string produces exactly the same result as
normalizing the one-element list holding that string, for every string and
every oracle (so a bare path or URL string still becomes an image item). -/
theorem normalize_string_eq_singleton_list (fs : FS) (net : Net) (s : String) :
    normalizeContent fs net (.str s) = normalizeContent fs net (.list [ContentElem.str s]) := rfl

/-- C9: `submit_feedback` sends a single label under `ground_truth` and a
label list, order preserved, under `ground_truth_labels`; the two field
names are distinct, so the two shapes are never merged into one
representation. -/
theorem submit_feedback_wire_shapes (base det s : String) (ls : List String) :
    (submit_feedback base det (.single s)).body = [("ground_truth", Json.str s)]
    ∧ (submit_feedback base det (.labels ls)).body =
        [("ground_truth_labels", Json.arr (ls.map Json.str))]
    ∧ "ground_truth" ≠ "ground_truth_labels"
    ∧ (submit_feedback base "det_1" (.labels ["a", "b"])).body =
        [("ground_truth_labels", Json.arr [Json.str "a", Json.str "b"])]
    ∧ (submit_feedback base "det_1" (.single "a")).body =
        [("ground_truth", Json.str "a")] :=
  ⟨rfl, rfl, by decide, rfl, rfl⟩

/-- C10: normalizing the empty list succeeds with the empty list unchanged,
for every filesystem and network oracle (hence without raising
`ValidationError` and without any file or network I/O): the all-dicts
pass-through check holds vacuously. -/
theorem normalize_empty_list (fs : FS) (net : Net) :
    normalizeContent fs net (.list []) = .ok [] := rfl
